import Mathlib

/-!
Verification of the ratio-computation and report-synthesis engine of
`financial_statement_analyzer.py` (class `FinancialStatementAnalyzer`).

Statement tables (pandas DataFrames) are embedded as `Table`: an ordered list
of column labels and an ordered list of rows, each row a name paired with the
list of its values aligned positionally with the columns.  Numeric cells are
embedded as `FVal`: a finite rational, positive or negative infinity, or NaN,
with subtraction and division following the floating-point semantics the
source relies on (division by zero yields an infinity or NaN, never an
exception).

The engine's exception-based error signalling (`try`/`except` returning `None`
with a logged message) is embedded as `Except`-valued results carrying the
typed error kinds the design document assigns to each exit path.
-/

/-- Numeric cell value: finite rational, an infinity, or NaN, mirroring the
floating-point values that flow through the pandas computations. -/
inductive FVal where
  | fin : ℚ → FVal
  | inf : FVal
  | ninf : FVal
  | nan : FVal
deriving DecidableEq, Repr

/-- Subtraction on cell values, with IEEE-style handling of infinities and
NaN (used by the Quick Ratio numerator and the net-margin change). -/
def FVal.sub : FVal → FVal → FVal
  | .nan, _ => .nan
  | _, .nan => .nan
  | .fin a, .fin b => .fin (a - b)
  | .fin _, .inf => .ninf
  | .fin _, .ninf => .inf
  | .inf, .fin _ => .inf
  | .ninf, .fin _ => .ninf
  | .inf, .inf => .nan
  | .inf, .ninf => .inf
  | .ninf, .inf => .ninf
  | .ninf, .ninf => .nan

/-- Division on cell values: a nonzero finite value divided by zero yields a
signed infinity, zero over zero yields NaN, and NaN propagates — no zero
denominator is special-cased into an error. -/
def FVal.div : FVal → FVal → FVal
  | .nan, _ => .nan
  | _, .nan => .nan
  | .fin a, .fin b =>
      if b ≠ 0 then .fin (a / b)
      else if 0 < a then .inf
      else if a < 0 then .ninf
      else .nan
  | .fin _, .inf => .fin 0
  | .fin _, .ninf => .fin 0
  | .inf, .fin b => if b < 0 then .ninf else .inf
  | .ninf, .fin b => if b < 0 then .inf else .ninf
  | .inf, .inf => .nan
  | .inf, .ninf => .nan
  | .ninf, .inf => .nan
  | .ninf, .ninf => .nan

/-- A statement table: ordered period columns and named rows whose value lists
are aligned positionally with the columns (a pandas DataFrame with a string
row index and period columns). -/
structure Table where
  cols : List String
  data : List (String × List FVal)
deriving DecidableEq, Repr

/-- Index of the first occurrence of a column label. -/
def colIndex (c : String) : List String → Option Nat
  | [] => none
  | a :: l => if a = c then some 0 else (colIndex c l).map (fun i => i + 1)

/-- Whether a row with the given name exists (`name in df.index`). -/
def Table.hasRow (t : Table) (r : String) : Bool :=
  (t.data.find? (fun p => p.1 == r)).isSome

/-- The row named `r` as a function from column label to value.  A label that
is not among the table's columns reads as NaN, mirroring pandas label
alignment, which fills unmatched labels with NaN. -/
def Table.rowFn (t : Table) (r : String) : String → FVal := fun c =>
  match t.data.find? (fun p => p.1 == r) with
  | some p =>
      match colIndex c t.cols with
      | some i => p.2.getD i FVal.nan
      | none => FVal.nan
  | none => FVal.nan

/-- Error kinds of the ratio computation, as assigned by the design document
to the source's exit paths: absent statement, or a `KeyError` from a row
lookup (`df.loc[name]`) caught by the enclosing handler. -/
inductive RatioError where
  | missingInput : RatioError
  | missingLineItem : String → RatioError
deriving DecidableEq, Repr

/-- `df.loc[name]` as used inside `calculate_financial_ratios`: the row as a
series on success, or the caught `KeyError` naming the missing row. -/
def Table.rowE (t : Table) (r : String) : Except RatioError (String → FVal) :=
  if t.hasRow r = true then .ok (t.rowFn r) else .error (.missingLineItem r)

/-- The ten ratio rows of `calculate_financial_ratios` (lines 88-154),
computed element-wise over the income statement's columns, with the row
lookups performed in the source's evaluation order so that the first absent
row aborts the whole computation. -/
def computeRatios (income balance : Table) : Except RatioError Table :=
  match balance.rowE "Current Assets" with
  | .error e => .error e
  | .ok ca =>
  match balance.rowE "Current Liabilities" with
  | .error e => .error e
  | .ok cl =>
  let r1 := income.cols.map (fun c => (ca c).div (cl c))
  match balance.rowE "Current Assets" with
  | .error e => .error e
  | .ok ca2 =>
  match balance.rowE "Inventory" with
  | .error e => .error e
  | .ok inv =>
  match balance.rowE "Current Liabilities" with
  | .error e => .error e
  | .ok cl2 =>
  let r2 := income.cols.map (fun c => ((ca2 c).sub (inv c)).div (cl2 c))
  match balance.rowE "Total Liabilities" with
  | .error e => .error e
  | .ok tl =>
  match balance.rowE "Total Equity" with
  | .error e => .error e
  | .ok te =>
  let r3 := income.cols.map (fun c => (tl c).div (te c))
  match income.rowE "Gross Profit" with
  | .error e => .error e
  | .ok gp =>
  match income.rowE "Revenue" with
  | .error e => .error e
  | .ok rev =>
  let r4 := income.cols.map (fun c => (gp c).div (rev c))
  match income.rowE "Operating Income" with
  | .error e => .error e
  | .ok oi =>
  match income.rowE "Revenue" with
  | .error e => .error e
  | .ok rev2 =>
  let r5 := income.cols.map (fun c => (oi c).div (rev2 c))
  match income.rowE "Net Income" with
  | .error e => .error e
  | .ok ni =>
  match income.rowE "Revenue" with
  | .error e => .error e
  | .ok rev3 =>
  let r6 := income.cols.map (fun c => (ni c).div (rev3 c))
  match income.rowE "Net Income" with
  | .error e => .error e
  | .ok ni2 =>
  match balance.rowE "Total Assets" with
  | .error e => .error e
  | .ok ta =>
  let r7 := income.cols.map (fun c => (ni2 c).div (ta c))
  match income.rowE "Net Income" with
  | .error e => .error e
  | .ok ni3 =>
  match balance.rowE "Total Equity" with
  | .error e => .error e
  | .ok te2 =>
  let r8 := income.cols.map (fun c => (ni3 c).div (te2 c))
  match income.rowE "Cost of Goods Sold" with
  | .error e => .error e
  | .ok cogs =>
  match balance.rowE "Inventory" with
  | .error e => .error e
  | .ok inv2 =>
  let r9 := income.cols.map (fun c => (cogs c).div (inv2 c))
  match income.rowE "Revenue" with
  | .error e => .error e
  | .ok rev4 =>
  match balance.rowE "Total Assets" with
  | .error e => .error e
  | .ok ta2 =>
  let r10 := income.cols.map (fun c => (rev4 c).div (ta2 c))
  .ok { cols := income.cols,
        data := [("Current Ratio", r1), ("Quick Ratio", r2), ("Debt-to-Equity", r3),
                 ("Gross Margin", r4), ("Operating Margin", r5), ("Net Margin", r6),
                 ("Return on Assets", r7), ("Return on Equity", r8),
                 ("Inventory Turnover", r9), ("Asset Turnover", r10)] }

/-- Instance state of `FinancialStatementAnalyzer`: the three optional
statements and the `ratios` slot, which starts out absent. -/
structure AnalyzerState where
  income_statement : Option Table
  balance_sheet : Option Table
  cash_flow : Option Table
  ratios : Option Table
deriving DecidableEq, Repr

/-- `calculate_financial_ratios` (lines 67-158): fails with `MissingInputError`
if either statement is absent; otherwise computes the ten ratios, storing the
table in the `ratios` slot on success and leaving the state untouched on
failure. -/
def calculate_financial_ratios (s : AnalyzerState) :
    Except RatioError Table × AnalyzerState :=
  match s.income_statement, s.balance_sheet with
  | some income, some balance =>
      match computeRatios income balance with
      | .ok rt => (.ok rt, { s with ratios := some rt })
      | .error e => (.error e, s)
  | _, _ => (.error .missingInput, s)

/-- The required balance-sheet rows of the ten formulas. -/
def requiredBalanceRows : List String :=
  ["Current Assets", "Current Liabilities", "Inventory",
   "Total Liabilities", "Total Equity", "Total Assets"]

/-- The required income-statement rows of the ten formulas. -/
def requiredIncomeRows : List String :=
  ["Gross Profit", "Revenue", "Operating Income", "Net Income",
   "Cost of Goods Sold"]

/-- All eleven required rows are present in their source tables. -/
def allRowsPresent (income balance : Table) : Bool :=
  balance.hasRow "Current Assets" && balance.hasRow "Current Liabilities" &&
  balance.hasRow "Inventory" && balance.hasRow "Total Liabilities" &&
  balance.hasRow "Total Equity" && balance.hasRow "Total Assets" &&
  income.hasRow "Gross Profit" && income.hasRow "Revenue" &&
  income.hasRow "Operating Income" && income.hasRow "Net Income" &&
  income.hasRow "Cost of Goods Sold"

/-- The ratio table `computeRatios` returns when every required row is
present, written directly in terms of the row accessors. -/
def ratioTableOf (income balance : Table) : Table :=
  { cols := income.cols,
    data :=
      [("Current Ratio", income.cols.map (fun c =>
          (balance.rowFn "Current Assets" c).div (balance.rowFn "Current Liabilities" c))),
       ("Quick Ratio", income.cols.map (fun c =>
          ((balance.rowFn "Current Assets" c).sub (balance.rowFn "Inventory" c)).div
            (balance.rowFn "Current Liabilities" c))),
       ("Debt-to-Equity", income.cols.map (fun c =>
          (balance.rowFn "Total Liabilities" c).div (balance.rowFn "Total Equity" c))),
       ("Gross Margin", income.cols.map (fun c =>
          (income.rowFn "Gross Profit" c).div (income.rowFn "Revenue" c))),
       ("Operating Margin", income.cols.map (fun c =>
          (income.rowFn "Operating Income" c).div (income.rowFn "Revenue" c))),
       ("Net Margin", income.cols.map (fun c =>
          (income.rowFn "Net Income" c).div (income.rowFn "Revenue" c))),
       ("Return on Assets", income.cols.map (fun c =>
          (income.rowFn "Net Income" c).div (balance.rowFn "Total Assets" c))),
       ("Return on Equity", income.cols.map (fun c =>
          (income.rowFn "Net Income" c).div (balance.rowFn "Total Equity" c))),
       ("Inventory Turnover", income.cols.map (fun c =>
          (income.rowFn "Cost of Goods Sold" c).div (balance.rowFn "Inventory" c))),
       ("Asset Turnover", income.cols.map (fun c =>
          (income.rowFn "Revenue" c).div (balance.rowFn "Total Assets" c)))] }

/-- Floor of a rational, computed from numerator and denominator. -/
def ratFloor (q : ℚ) : Int := Int.fdiv q.num (q.den : Int)

/-- Round to the nearest integer, ties to even — the rounding used by
Python's fixed-point string formatting. -/
def roundHalfEven (q : ℚ) : Int :=
  let f : Int := ratFloor q
  let frac : ℚ := q - (f : ℚ)
  if frac < 1/2 then f
  else if 1/2 < frac then f + 1
  else if f % 2 = 0 then f else f + 1

/-- Two-digit zero-padded rendering of a value below 100. -/
def pad2 (n : Nat) : String := if n < 10 then "0" ++ toString n else toString n

/-- Python `"{:.2%}"` on a finite value: scale by 100, round to two decimal
places, render with a trailing percent sign. -/
def formatPercent2 (q : ℚ) : String :=
  let n := roundHalfEven (q * 10000)
  let a := n.natAbs
  let s := toString (a / 100) ++ "." ++ pad2 (a % 100) ++ "%"
  if n < 0 then "-" ++ s else s

/-- Python `"{:.2f}"` on a finite value. -/
def formatFixed2 (q : ℚ) : String :=
  let n := roundHalfEven (q * 100)
  let a := n.natAbs
  let s := toString (a / 100) ++ "." ++ pad2 (a % 100)
  if n < 0 then "-" ++ s else s

/-- Insert a thousands separator after every third character of a reversed
digit string. -/
def commasRev : List Char → List Char
  | a :: b :: c :: d :: rest => a :: b :: c :: ',' :: commasRev (d :: rest)
  | l => l

/-- Python `"{:,.2f}"` on a finite value: two decimal places and thousands
separators in the integer part. -/
def formatComma2 (q : ℚ) : String :=
  let n := roundHalfEven (q * 100)
  let a := n.natAbs
  let grouped := String.mk (commasRev (toString (a / 100)).data.reverse).reverse
  let s := grouped ++ "." ++ pad2 (a % 100)
  if n < 0 then "-" ++ s else s

/-- Percentage rendering of a cell value, with Python's `inf`/`nan` spellings
for the non-finite cases. -/
def FVal.fmtPercent2 : FVal → String
  | .fin q => formatPercent2 q
  | .inf => "inf%"
  | .ninf => "-inf%"
  | .nan => "nan%"

/-- Plain two-decimal rendering of a cell value. -/
def FVal.fmtFixed2 : FVal → String
  | .fin q => formatFixed2 q
  | .inf => "inf"
  | .ninf => "-inf"
  | .nan => "nan"

/-- Currency rendering of a cell value (`"${:,.2f}"`). -/
def FVal.fmtCurrency : FVal → String
  | .fin q => "$" ++ formatComma2 q
  | .inf => "$inf"
  | .ninf => "$-inf"
  | .nan => "$nan"

/-- Error kinds of report generation: the absent-ratios exit, or an absent
row/column surfacing during report assembly. -/
inductive ReportError where
  | noRatiosAvailable : ReportError
  | reportComposition : String → ReportError
deriving DecidableEq, Repr

/-- Scalar lookup `df.loc[row, col]` as used in `generate_summary_report`: a
missing row or column label surfaces as a composition error naming the key. -/
def Table.cellE (t : Table) (r c : String) : Except ReportError FVal :=
  if t.hasRow r = true then
    match colIndex c t.cols with
    | some _ => .ok (t.rowFn r c)
    | none => .error (.reportComposition c)
  else .error (.reportComposition r)

/-- The previous period (`ratios.columns[-2] if len(...) > 1 else None`,
line 251). -/
def prevPeriod (t : Table) : Option String :=
  if 1 < t.cols.length then some (t.cols.getD (t.cols.length - 2) "") else none

/-- The period-over-period section (lines 280-302): emitted only when the
previous period is truthy (present and not the empty string); revenue and net
income growth are ratios minus one, the net-margin change is a subtraction. -/
def popSection (rt income : Table) (latest : String) (prev : Option String) :
    Except ReportError (List String) :=
  match prev with
  | none => .ok []
  | some p =>
    if p = "" then .ok []
    else
    match income.cellE "Revenue" latest with
    | .error e => .error e
    | .ok revL =>
    match income.cellE "Revenue" p with
    | .error e => .error e
    | .ok revP =>
    match income.cellE "Net Income" latest with
    | .error e => .error e
    | .ok niL =>
    match income.cellE "Net Income" p with
    | .error e => .error e
    | .ok niP =>
    match rt.cellE "Net Margin" latest with
    | .error e => .error e
    | .ok nmL =>
    match rt.cellE "Net Margin" p with
    | .error e => .error e
    | .ok nmP =>
    .ok ["## Period-over-Period Changes\n",
         "- Revenue Growth: " ++ ((revL.div revP).sub (FVal.fin 1)).fmtPercent2,
         "- Net Income Growth: " ++ ((niL.div niP).sub (FVal.fin 1)).fmtPercent2,
         "- Net Margin Change: " ++ ((nmL.sub nmP).fmtPercent2 ++ " points\n")]

/-- The report line list of `generate_summary_report` (lines 250-311), with
the generation date passed explicitly in place of the clock read.  Lookups are
performed in the source's evaluation order; the first absent key aborts
composition. -/
def reportLines (rt : Table) (incomeOpt : Option Table) (today : String) :
    Except ReportError (List String) :=
  match incomeOpt with
  | none => .error (.reportComposition "income statement")
  | some income =>
  match rt.cols.getLast? with
  | none => .error (.reportComposition "period")
  | some latest =>
  match income.cellE "Revenue" latest with
  | .error e => .error e
  | .ok revenue =>
  match income.cellE "Net Income" latest with
  | .error e => .error e
  | .ok netIncome =>
  match rt.cellE "Net Margin" latest with
  | .error e => .error e
  | .ok nm =>
  match rt.cellE "Current Ratio" latest with
  | .error e => .error e
  | .ok cr =>
  match rt.cellE "Quick Ratio" latest with
  | .error e => .error e
  | .ok qr =>
  match rt.cellE "Return on Assets" latest with
  | .error e => .error e
  | .ok roa =>
  match rt.cellE "Return on Equity" latest with
  | .error e => .error e
  | .ok roe =>
  match popSection rt income latest (prevPeriod rt) with
  | .error e => .error e
  | .ok pop =>
  .ok (["# Financial Statement Analysis Summary Report",
        "## Period: " ++ latest,
        "Generated on: " ++ (today ++ "\n"),
        "## Key Financial Metrics\n",
        "### Revenue and Profit",
        "- Revenue: " ++ revenue.fmtCurrency,
        "- Net Income: " ++ netIncome.fmtCurrency,
        "- Net Margin: " ++ (nm.fmtPercent2 ++ "\n"),
        "### Liquidity",
        "- Current Ratio: " ++ cr.fmtFixed2,
        "- Quick Ratio: " ++ (qr.fmtFixed2 ++ "\n"),
        "### Profitability",
        "- Return on Assets (ROA): " ++ roa.fmtPercent2,
        "- Return on Equity (ROE): " ++ (roe.fmtPercent2 ++ "\n")]
       ++ pop ++
       ["## Insights and Recommendations\n",
        "1. Placeholder for automated insights based on financial analysis",
        "2. Placeholder for recommendations based on trend analysis",
        "3. Placeholder for risk assessment\n"])

/-- `generate_summary_report` (lines 229-319): if the `ratios` slot is absent
the method first runs `calculate_financial_ratios` itself (line 244); only if
the slot is still absent afterwards does it bail out with the no-ratios
message; otherwise the report is composed from the stored ratio table and the
stored income statement and joined with newlines. -/
def generate_summary_report (s : AnalyzerState) (today : String) :
    Except ReportError String × AnalyzerState :=
  let s1 := match s.ratios with
    | none => (calculate_financial_ratios s).2
    | some _ => s
  match s1.ratios with
  | none => (.error .noRatiosAvailable, s1)
  | some rt =>
      ((reportLines rt s1.income_statement today).map (String.intercalate "\n"), s1)

/-- Single-period income statement with all required rows. -/
def incC : Table :=
  { cols := ["2023-Q1"],
    data := [("Revenue", [FVal.fin 1000000]),
             ("Cost of Goods Sold", [FVal.fin 600000]),
             ("Gross Profit", [FVal.fin 400000]),
             ("Operating Income", [FVal.fin 250000]),
             ("Net Income", [FVal.fin 150000])] }

/-- Single-period balance sheet with all required rows. -/
def balC : Table :=
  { cols := ["2023-Q1"],
    data := [("Current Assets", [FVal.fin 500000]),
             ("Inventory", [FVal.fin 100000]),
             ("Total Assets", [FVal.fin 2100000]),
             ("Current Liabilities", [FVal.fin 400000]),
             ("Total Liabilities", [FVal.fin 1200000]),
             ("Total Equity", [FVal.fin 900000])] }

/-- Balance sheet with a zero Current Liabilities value. -/
def balZ : Table :=
  { cols := ["2023-Q1"],
    data := [("Current Assets", [FVal.fin 500000]),
             ("Inventory", [FVal.fin 100000]),
             ("Total Assets", [FVal.fin 2100000]),
             ("Current Liabilities", [FVal.fin 0]),
             ("Total Liabilities", [FVal.fin 1200000]),
             ("Total Equity", [FVal.fin 900000])] }

/-- Balance sheet missing the Inventory row. -/
def balM : Table :=
  { cols := ["2023-Q1"],
    data := [("Current Assets", [FVal.fin 500000]),
             ("Total Assets", [FVal.fin 2100000]),
             ("Current Liabilities", [FVal.fin 400000]),
             ("Total Liabilities", [FVal.fin 1200000]),
             ("Total Equity", [FVal.fin 900000])] }

/-- Two-period income statement, Revenue 1000000 then 1050000. -/
def incW : Table :=
  { cols := ["2023-Q1", "2023-Q2"],
    data := [("Revenue", [FVal.fin 1000000, FVal.fin 1050000]),
             ("Cost of Goods Sold", [FVal.fin 600000, FVal.fin 620000]),
             ("Gross Profit", [FVal.fin 400000, FVal.fin 430000]),
             ("Operating Income", [FVal.fin 250000, FVal.fin 260000]),
             ("Net Income", [FVal.fin 150000, FVal.fin 170000])] }

/-- Two-period balance sheet with all required rows. -/
def balW : Table :=
  { cols := ["2023-Q1", "2023-Q2"],
    data := [("Current Assets", [FVal.fin 500000, FVal.fin 520000]),
             ("Inventory", [FVal.fin 100000, FVal.fin 110000]),
             ("Total Assets", [FVal.fin 2100000, FVal.fin 2150000]),
             ("Current Liabilities", [FVal.fin 400000, FVal.fin 410000]),
             ("Total Liabilities", [FVal.fin 1200000, FVal.fin 1230000]),
             ("Total Equity", [FVal.fin 900000, FVal.fin 920000])] }

/-- The ratio table of the two-period example. -/
def rtW : Table := ratioTableOf incW balW

/-- Fresh analyzer state holding the single-period statements, no ratios yet. -/
def sW : AnalyzerState := ⟨some incC, some balC, none, none⟩

/-- State with the income statement absent. -/
def sNoInput : AnalyzerState := ⟨none, some balC, none, none⟩

/-- State after a successful computation whose balance sheet has since been
replaced by one missing the Inventory row. -/
def sStale : AnalyzerState := ⟨some incC, some balM, none, some (ratioTableOf incC balC)⟩

theorem colIndex_mem (c : String) (cols : List String) (h : c ∈ cols) :
    ∃ i, colIndex c cols = some i ∧
      ∀ (f : String → FVal), (cols.map f).getD i FVal.nan = f c := by
  induction cols with
  | nil => cases h
  | cons a l ih =>
    by_cases hac : a = c
    · subst hac
      exact ⟨0, by simp [colIndex], fun f => by simp⟩
    · have hcl : c ∈ l := by
        rcases List.mem_cons.mp h with h1 | h1
        · exact absurd h1.symm hac
        · exact h1
      obtain ⟨i, hi, hg⟩ := ih hcl
      refine ⟨i + 1, by simp [colIndex, hac, hi], fun f => ?_⟩
      simpa using hg f

theorem rowFn_eval (t : Table) (r c : String) (f : String → FVal)
    (hfind : t.data.find? (fun p => p.1 == r) = some (r, t.cols.map f))
    (hc : c ∈ t.cols) : t.rowFn r c = f c := by
  obtain ⟨i, hi, hg⟩ := colIndex_mem c t.cols hc
  have hg2 := hg f
  simp only [Table.rowFn, hfind, hi]
  exact hg2

theorem cellE_ok (t : Table) (r c : String) (h1 : t.hasRow r = true)
    (h2 : (colIndex c t.cols).isSome = true) :
    t.cellE r c = .ok (t.rowFn r c) := by
  cases hco : colIndex c t.cols with
  | none => rw [hco] at h2; cases h2
  | some i => simp [Table.cellE, h1, hco]

theorem computeRatios_eq (income balance : Table)
    (h : allRowsPresent income balance = true) :
    computeRatios income balance = .ok (ratioTableOf income balance) := by
  simp only [allRowsPresent, Bool.and_eq_true, and_assoc] at h
  obtain ⟨h1, h2, h3, h4, h5, h6, h7, h8, h9, h10, h11⟩ := h
  simp [computeRatios, Table.rowE, h1, h2, h3, h4, h5, h6, h7, h8, h9, h10, h11,
    ratioTableOf]

theorem div_fin_zero (x : FVal) :
    x.div (FVal.fin 0) = FVal.inf ∨ x.div (FVal.fin 0) = FVal.ninf ∨
      x.div (FVal.fin 0) = FVal.nan := by
  cases x with
  | fin a =>
    rcases lt_trichotomy a 0 with h | h | h
    · right; left; simp [FVal.div, h, not_lt.mpr h.le]
    · subst h; right; right; simp [FVal.div]
    · left; simp [FVal.div, h]
  | inf => left; simp [FVal.div]
  | ninf => right; left; simp [FVal.div]
  | nan => right; right; simp [FVal.div]

theorem ne_concat_left (a p t : String) (i : Nat) (hi : i < a.data.length)
    (h : a.data[i]? ≠ t.data[i]?) : a ++ p ≠ t := by
  intro he
  apply h
  rw [← he, String.data_append, List.getElem?_append_left hi]

/-- C4: if either the income statement or the balance sheet is absent when
ratio computation is requested, the call fails with `MissingInputError` and
performs no computation: the state is returned unchanged and no ratio table
is produced. -/
theorem compute_missing_input (s : AnalyzerState)
    (h : s.income_statement = none ∨ s.balance_sheet = none) :
    calculate_financial_ratios s = (.error .missingInput, s) := by
  rcases h with h | h
  · cases hb : s.balance_sheet <;> simp [calculate_financial_ratios, h, hb]
  · cases hi : s.income_statement <;> simp [calculate_financial_ratios, h, hi]

/-- Witness for C4 at a state whose income statement is absent. -/
theorem compute_missing_input_witness :
    calculate_financial_ratios sNoInput = (.error .missingInput, sNoInput) :=
  compute_missing_input sNoInput (Or.inl rfl)

/-- C8: with Current Assets 500000 and Current Liabilities 400000 the Current
Ratio is exactly 5/4 = 1.25, and with Revenue 1000000 and Gross Profit 400000
the Gross Margin is exactly 2/5 = 0.40. -/
theorem compute_concrete_values :
    ∃ t, computeRatios incC balC = .ok t ∧
      t.rowFn "Current Ratio" "2023-Q1" = FVal.fin (5/4) ∧
      t.rowFn "Gross Margin" "2023-Q1" = FVal.fin (2/5) := by
  refine ⟨ratioTableOf incC balC, computeRatios_eq incC balC (by decide), ?_, ?_⟩
  · have h := rowFn_eval (ratioTableOf incC balC) "Current Ratio" "2023-Q1"
      (fun c => (balC.rowFn "Current Assets" c).div (balC.rowFn "Current Liabilities" c))
      rfl (by decide)
    have h1 : balC.rowFn "Current Assets" "2023-Q1" = FVal.fin 500000 := by decide
    have h2 : balC.rowFn "Current Liabilities" "2023-Q1" = FVal.fin 400000 := by decide
    rw [h]
    simp only [h1, h2, FVal.div]
    rw [if_pos (by norm_num : (400000 : ℚ) ≠ 0)]
    simp only [FVal.fin.injEq]
    norm_num
  · have h := rowFn_eval (ratioTableOf incC balC) "Gross Margin" "2023-Q1"
      (fun c => (incC.rowFn "Gross Profit" c).div (incC.rowFn "Revenue" c))
      rfl (by decide)
    have h1 : incC.rowFn "Gross Profit" "2023-Q1" = FVal.fin 400000 := by decide
    have h2 : incC.rowFn "Revenue" "2023-Q1" = FVal.fin 1000000 := by decide
    rw [h]
    simp only [h1, h2, FVal.div]
    rw [if_pos (by norm_num : (1000000 : ℚ) ≠ 0)]
    simp only [FVal.fin.injEq]
    norm_num

/-- C9: the ratio computation is deterministic, a pure function of the two
statement tables: two states agreeing on income statement and balance sheet
(whatever their ratios slots or cash-flow statements hold) yield identical
results. -/
theorem compute_deterministic (s1 s2 : AnalyzerState)
    (hi : s1.income_statement = s2.income_statement)
    (hb : s1.balance_sheet = s2.balance_sheet) :
    (calculate_financial_ratios s1).1 = (calculate_financial_ratios s2).1 := by
  cases h1 : s2.income_statement with
  | none => simp [calculate_financial_ratios, hi, hb, h1]
  | some income =>
    cases h2 : s2.balance_sheet with
    | none => simp [calculate_financial_ratios, hi, hb, h1, h2]
    | some balance =>
      cases hc : computeRatios income balance <;>
        simp [calculate_financial_ratios, hi, hb, h1, h2, hc]

/-- Witness for C9: two states differing in cash flow and stored ratios but
sharing the statements produce the same result. -/
theorem compute_deterministic_witness :
    (calculate_financial_ratios ⟨some incC, some balC, none, none⟩).1 =
      (calculate_financial_ratios
        ⟨some incC, some balC, some incC, some (ratioTableOf incC balC)⟩).1 :=
  compute_deterministic _ _ rfl rfl

/-- C1: when some row required by the ten formulas is absent from its source
table, the whole computation fails with `MissingLineItemError` naming a
missing required row, the state is unchanged, and no ratio table — partial or
otherwise — is produced. -/
theorem ratios_missing_row_fails (s : AnalyzerState) (income balance : Table)
    (hi : s.income_statement = some income) (hb : s.balance_sheet = some balance)
    (hmiss : (∃ r ∈ requiredBalanceRows, balance.hasRow r = false) ∨
             (∃ r ∈ requiredIncomeRows, income.hasRow r = false)) :
    ∃ r, calculate_financial_ratios s = (.error (.missingLineItem r), s) ∧
      ((r ∈ requiredBalanceRows ∧ balance.hasRow r = false) ∨
       (r ∈ requiredIncomeRows ∧ income.hasRow r = false)) := by
  cases hca : balance.hasRow "Current Assets" with
  | false =>
    exact ⟨"Current Assets",
      by simp [calculate_financial_ratios, hi, hb, computeRatios, Table.rowE, hca],
      Or.inl ⟨by simp [requiredBalanceRows], hca⟩⟩
  | true =>
  cases hcl : balance.hasRow "Current Liabilities" with
  | false =>
    exact ⟨"Current Liabilities",
      by simp [calculate_financial_ratios, hi, hb, computeRatios, Table.rowE, hca, hcl],
      Or.inl ⟨by simp [requiredBalanceRows], hcl⟩⟩
  | true =>
  cases hinv : balance.hasRow "Inventory" with
  | false =>
    exact ⟨"Inventory",
      by simp [calculate_financial_ratios, hi, hb, computeRatios, Table.rowE, hca, hcl,
        hinv],
      Or.inl ⟨by simp [requiredBalanceRows], hinv⟩⟩
  | true =>
  cases htl : balance.hasRow "Total Liabilities" with
  | false =>
    exact ⟨"Total Liabilities",
      by simp [calculate_financial_ratios, hi, hb, computeRatios, Table.rowE, hca, hcl,
        hinv, htl],
      Or.inl ⟨by simp [requiredBalanceRows], htl⟩⟩
  | true =>
  cases hte : balance.hasRow "Total Equity" with
  | false =>
    exact ⟨"Total Equity",
      by simp [calculate_financial_ratios, hi, hb, computeRatios, Table.rowE, hca, hcl,
        hinv, htl, hte],
      Or.inl ⟨by simp [requiredBalanceRows], hte⟩⟩
  | true =>
  cases hgp : income.hasRow "Gross Profit" with
  | false =>
    exact ⟨"Gross Profit",
      by simp [calculate_financial_ratios, hi, hb, computeRatios, Table.rowE, hca, hcl,
        hinv, htl, hte, hgp],
      Or.inr ⟨by simp [requiredIncomeRows], hgp⟩⟩
  | true =>
  cases hrev : income.hasRow "Revenue" with
  | false =>
    exact ⟨"Revenue",
      by simp [calculate_financial_ratios, hi, hb, computeRatios, Table.rowE, hca, hcl,
        hinv, htl, hte, hgp, hrev],
      Or.inr ⟨by simp [requiredIncomeRows], hrev⟩⟩
  | true =>
  cases hoi : income.hasRow "Operating Income" with
  | false =>
    exact ⟨"Operating Income",
      by simp [calculate_financial_ratios, hi, hb, computeRatios, Table.rowE, hca, hcl,
        hinv, htl, hte, hgp, hrev, hoi],
      Or.inr ⟨by simp [requiredIncomeRows], hoi⟩⟩
  | true =>
  cases hni : income.hasRow "Net Income" with
  | false =>
    exact ⟨"Net Income",
      by simp [calculate_financial_ratios, hi, hb, computeRatios, Table.rowE, hca, hcl,
        hinv, htl, hte, hgp, hrev, hoi, hni],
      Or.inr ⟨by simp [requiredIncomeRows], hni⟩⟩
  | true =>
  cases hta : balance.hasRow "Total Assets" with
  | false =>
    exact ⟨"Total Assets",
      by simp [calculate_financial_ratios, hi, hb, computeRatios, Table.rowE, hca, hcl,
        hinv, htl, hte, hgp, hrev, hoi, hni, hta],
      Or.inl ⟨by simp [requiredBalanceRows], hta⟩⟩
  | true =>
  cases hcogs : income.hasRow "Cost of Goods Sold" with
  | false =>
    exact ⟨"Cost of Goods Sold",
      by simp [calculate_financial_ratios, hi, hb, computeRatios, Table.rowE, hca, hcl,
        hinv, htl, hte, hgp, hrev, hoi, hni, hta, hcogs],
      Or.inr ⟨by simp [requiredIncomeRows], hcogs⟩⟩
  | true =>
    exfalso
    rcases hmiss with ⟨r, hr, hf⟩ | ⟨r, hr, hf⟩
    · simp [requiredBalanceRows] at hr
      rcases hr with rfl | rfl | rfl | rfl | rfl | rfl <;> simp_all
    · simp [requiredIncomeRows] at hr
      rcases hr with rfl | rfl | rfl | rfl | rfl <;> simp_all

/-- Witness for C1: a balance sheet missing the Inventory row makes the
computation fail with `MissingLineItemError` naming a missing required row. -/
theorem ratios_missing_row_fails_witness :
    ∃ r, calculate_financial_ratios ⟨some incC, some balM, none, none⟩ =
        (.error (.missingLineItem r), ⟨some incC, some balM, none, none⟩) ∧
      ((r ∈ requiredBalanceRows ∧ balM.hasRow r = false) ∨
       (r ∈ requiredIncomeRows ∧ incC.hasRow r = false)) :=
  ratios_missing_row_fails ⟨some incC, some balM, none, none⟩ incC balM rfl rfl
    (Or.inl ⟨"Inventory", by decide, by decide⟩)

/-- C3: with every required row present the computation succeeds with a table
whose columns are exactly the income statement's columns, whose rows are
exactly the ten fixed ratio names, and whose every entry is the per-period
formula value — NaN or an infinity only ever arising from the arithmetic. -/
theorem compute_complete_table (income balance : Table)
    (h : allRowsPresent income balance = true) :
    ∃ t, computeRatios income balance = .ok t ∧ t.cols = income.cols ∧
      t.data.map Prod.fst = ["Current Ratio", "Quick Ratio", "Debt-to-Equity",
        "Gross Margin", "Operating Margin", "Net Margin", "Return on Assets",
        "Return on Equity", "Inventory Turnover", "Asset Turnover"] ∧
      ∀ c ∈ income.cols,
        t.rowFn "Current Ratio" c =
          (balance.rowFn "Current Assets" c).div (balance.rowFn "Current Liabilities" c) ∧
        t.rowFn "Quick Ratio" c =
          ((balance.rowFn "Current Assets" c).sub (balance.rowFn "Inventory" c)).div
            (balance.rowFn "Current Liabilities" c) ∧
        t.rowFn "Debt-to-Equity" c =
          (balance.rowFn "Total Liabilities" c).div (balance.rowFn "Total Equity" c) ∧
        t.rowFn "Gross Margin" c =
          (income.rowFn "Gross Profit" c).div (income.rowFn "Revenue" c) ∧
        t.rowFn "Operating Margin" c =
          (income.rowFn "Operating Income" c).div (income.rowFn "Revenue" c) ∧
        t.rowFn "Net Margin" c =
          (income.rowFn "Net Income" c).div (income.rowFn "Revenue" c) ∧
        t.rowFn "Return on Assets" c =
          (income.rowFn "Net Income" c).div (balance.rowFn "Total Assets" c) ∧
        t.rowFn "Return on Equity" c =
          (income.rowFn "Net Income" c).div (balance.rowFn "Total Equity" c) ∧
        t.rowFn "Inventory Turnover" c =
          (income.rowFn "Cost of Goods Sold" c).div (balance.rowFn "Inventory" c) ∧
        t.rowFn "Asset Turnover" c =
          (income.rowFn "Revenue" c).div (balance.rowFn "Total Assets" c) := by
  refine ⟨ratioTableOf income balance, computeRatios_eq income balance h, rfl, rfl, ?_⟩
  intro c hc
  exact ⟨rowFn_eval _ _ _ (fun x =>
      (balance.rowFn "Current Assets" x).div (balance.rowFn "Current Liabilities" x)) rfl hc,
    rowFn_eval _ _ _ (fun x =>
      ((balance.rowFn "Current Assets" x).sub (balance.rowFn "Inventory" x)).div
        (balance.rowFn "Current Liabilities" x)) rfl hc,
    rowFn_eval _ _ _ (fun x =>
      (balance.rowFn "Total Liabilities" x).div (balance.rowFn "Total Equity" x)) rfl hc,
    rowFn_eval _ _ _ (fun x =>
      (income.rowFn "Gross Profit" x).div (income.rowFn "Revenue" x)) rfl hc,
    rowFn_eval _ _ _ (fun x =>
      (income.rowFn "Operating Income" x).div (income.rowFn "Revenue" x)) rfl hc,
    rowFn_eval _ _ _ (fun x =>
      (income.rowFn "Net Income" x).div (income.rowFn "Revenue" x)) rfl hc,
    rowFn_eval _ _ _ (fun x =>
      (income.rowFn "Net Income" x).div (balance.rowFn "Total Assets" x)) rfl hc,
    rowFn_eval _ _ _ (fun x =>
      (income.rowFn "Net Income" x).div (balance.rowFn "Total Equity" x)) rfl hc,
    rowFn_eval _ _ _ (fun x =>
      (income.rowFn "Cost of Goods Sold" x).div (balance.rowFn "Inventory" x)) rfl hc,
    rowFn_eval _ _ _ (fun x =>
      (income.rowFn "Revenue" x).div (balance.rowFn "Total Assets" x)) rfl hc⟩

/-- Witness for C3 at the complete single-period statements. -/
theorem compute_complete_table_witness :
    ∃ t, computeRatios incC balC = .ok t ∧ t.cols = incC.cols ∧
      t.data.map Prod.fst = ["Current Ratio", "Quick Ratio", "Debt-to-Equity",
        "Gross Margin", "Operating Margin", "Net Margin", "Return on Assets",
        "Return on Equity", "Inventory Turnover", "Asset Turnover"] ∧
      ∀ c ∈ incC.cols,
        t.rowFn "Current Ratio" c =
          (balC.rowFn "Current Assets" c).div (balC.rowFn "Current Liabilities" c) ∧
        t.rowFn "Quick Ratio" c =
          ((balC.rowFn "Current Assets" c).sub (balC.rowFn "Inventory" c)).div
            (balC.rowFn "Current Liabilities" c) ∧
        t.rowFn "Debt-to-Equity" c =
          (balC.rowFn "Total Liabilities" c).div (balC.rowFn "Total Equity" c) ∧
        t.rowFn "Gross Margin" c =
          (incC.rowFn "Gross Profit" c).div (incC.rowFn "Revenue" c) ∧
        t.rowFn "Operating Margin" c =
          (incC.rowFn "Operating Income" c).div (incC.rowFn "Revenue" c) ∧
        t.rowFn "Net Margin" c =
          (incC.rowFn "Net Income" c).div (incC.rowFn "Revenue" c) ∧
        t.rowFn "Return on Assets" c =
          (incC.rowFn "Net Income" c).div (balC.rowFn "Total Assets" c) ∧
        t.rowFn "Return on Equity" c =
          (incC.rowFn "Net Income" c).div (balC.rowFn "Total Equity" c) ∧
        t.rowFn "Inventory Turnover" c =
          (incC.rowFn "Cost of Goods Sold" c).div (balC.rowFn "Inventory" c) ∧
        t.rowFn "Asset Turnover" c =
          (incC.rowFn "Revenue" c).div (balC.rowFn "Total Assets" c) :=
  compute_complete_table incC balC (by decide)

/-- C5: a zero denominator (Current Liabilities = 0 in some period) does not
make the computation fail: it succeeds and the affected Current Ratio entry is
an infinity or NaN, per the floating-point division semantics. -/
theorem compute_zero_denominator (income balance : Table) (c : String)
    (h : allRowsPresent income balance = true) (hc : c ∈ income.cols)
    (hz : balance.rowFn "Current Liabilities" c = FVal.fin 0) :
    ∃ t, computeRatios income balance = .ok t ∧
      (t.rowFn "Current Ratio" c = FVal.inf ∨ t.rowFn "Current Ratio" c = FVal.ninf ∨
       t.rowFn "Current Ratio" c = FVal.nan) := by
  refine ⟨ratioTableOf income balance, computeRatios_eq income balance h, ?_⟩
  have he := rowFn_eval (ratioTableOf income balance) "Current Ratio" c
    (fun x => (balance.rowFn "Current Assets" x).div (balance.rowFn "Current Liabilities" x))
    rfl hc
  rw [he]
  simp only [hz]
  exact div_fin_zero _

/-- Witness for C5: Current Liabilities 0 with Current Assets 500000 makes
the computation succeed with a non-finite Current Ratio. -/
theorem compute_zero_denominator_witness :
    ∃ t, computeRatios incC balZ = .ok t ∧
      (t.rowFn "Current Ratio" "2023-Q1" = FVal.inf ∨
       t.rowFn "Current Ratio" "2023-Q1" = FVal.ninf ∨
       t.rowFn "Current Ratio" "2023-Q1" = FVal.nan) :=
  compute_zero_denominator incC balZ "2023-Q1" (by decide) (by decide) (by decide)

/-- C10: when a computation fails while a previously computed table sits in
the `ratios` slot, the slot is left unchanged, and a subsequent report request
is composed from that stale table (and the current income statement) instead
of failing for lack of ratios. -/
theorem stale_table_after_failure (s : AnalyzerState) (rt : Table) (e : RatioError)
    (today : String) (h0 : s.ratios = some rt)
    (h1 : (calculate_financial_ratios s).1 = .error e) :
    (calculate_financial_ratios s).2 = s ∧
    generate_summary_report ((calculate_financial_ratios s).2) today =
      ((reportLines rt s.income_statement today).map (String.intercalate "\n"), s) := by
  have hstate : (calculate_financial_ratios s).2 = s := by
    cases hi : s.income_statement with
    | none => simp [calculate_financial_ratios, hi]
    | some income =>
      cases hb : s.balance_sheet with
      | none => simp [calculate_financial_ratios, hi, hb]
      | some balance =>
        cases hc : computeRatios income balance with
        | ok rt2 => exfalso; simp [calculate_financial_ratios, hi, hb, hc] at h1
        | error e2 => simp [calculate_financial_ratios, hi, hb, hc]
  refine ⟨hstate, ?_⟩
  rw [hstate]
  simp [generate_summary_report, h0]

/-- Witness for C10: after the balance sheet loses its Inventory row, the
failed recomputation leaves the stored table in place and the report is
composed from it. -/
theorem stale_table_after_failure_witness :
    (calculate_financial_ratios sStale).2 = sStale ∧
    generate_summary_report ((calculate_financial_ratios sStale).2) "2025-09-09" =
      ((reportLines (ratioTableOf incC balC) sStale.income_statement "2025-09-09").map
        (String.intercalate "\n"), sStale) :=
  stale_table_after_failure sStale (ratioTableOf incC balC)
    (.missingLineItem "Inventory") "2025-09-09" rfl rfl

theorem popSection_eval (rt income : Table) (latest p : String)
    (hp : prevPeriod rt = some p) (hpne : p ≠ "")
    (hRev : income.hasRow "Revenue" = true) (hNI : income.hasRow "Net Income" = true)
    (hNM : rt.hasRow "Net Margin" = true)
    (hil : (colIndex latest income.cols).isSome = true)
    (hip : (colIndex p income.cols).isSome = true)
    (hrl : (colIndex latest rt.cols).isSome = true)
    (hrp : (colIndex p rt.cols).isSome = true) :
    popSection rt income latest (prevPeriod rt) = .ok
      ["## Period-over-Period Changes\n",
       "- Revenue Growth: " ++ (((income.rowFn "Revenue" latest).div
          (income.rowFn "Revenue" p)).sub (FVal.fin 1)).fmtPercent2,
       "- Net Income Growth: " ++ (((income.rowFn "Net Income" latest).div
          (income.rowFn "Net Income" p)).sub (FVal.fin 1)).fmtPercent2,
       "- Net Margin Change: " ++ (((rt.rowFn "Net Margin" latest).sub
          (rt.rowFn "Net Margin" p)).fmtPercent2 ++ " points\n")] := by
  have e1 := cellE_ok income "Revenue" latest hRev hil
  have e2 := cellE_ok income "Revenue" p hRev hip
  have e3 := cellE_ok income "Net Income" latest hNI hil
  have e4 := cellE_ok income "Net Income" p hNI hip
  have e5 := cellE_ok rt "Net Margin" latest hNM hrl
  have e6 := cellE_ok rt "Net Margin" p hNM hrp
  simp only [popSection, hp, if_neg hpne, e1, e2, e3, e4, e5, e6]

theorem reportLines_eval (rt income : Table) (today latest : String) (pop : List String)
    (hl : rt.cols.getLast? = some latest)
    (hRev : income.hasRow "Revenue" = true) (hNI : income.hasRow "Net Income" = true)
    (hNM : rt.hasRow "Net Margin" = true) (hCR : rt.hasRow "Current Ratio" = true)
    (hQR : rt.hasRow "Quick Ratio" = true) (hROA : rt.hasRow "Return on Assets" = true)
    (hROE : rt.hasRow "Return on Equity" = true)
    (hil : (colIndex latest income.cols).isSome = true)
    (hrl : (colIndex latest rt.cols).isSome = true)
    (hpop : popSection rt income latest (prevPeriod rt) = .ok pop) :
    reportLines rt (some income) today = .ok
      (["# Financial Statement Analysis Summary Report",
        "## Period: " ++ latest,
        "Generated on: " ++ (today ++ "\n"),
        "## Key Financial Metrics\n",
        "### Revenue and Profit",
        "- Revenue: " ++ (income.rowFn "Revenue" latest).fmtCurrency,
        "- Net Income: " ++ (income.rowFn "Net Income" latest).fmtCurrency,
        "- Net Margin: " ++ ((rt.rowFn "Net Margin" latest).fmtPercent2 ++ "\n"),
        "### Liquidity",
        "- Current Ratio: " ++ (rt.rowFn "Current Ratio" latest).fmtFixed2,
        "- Quick Ratio: " ++ ((rt.rowFn "Quick Ratio" latest).fmtFixed2 ++ "\n"),
        "### Profitability",
        "- Return on Assets (ROA): " ++ (rt.rowFn "Return on Assets" latest).fmtPercent2,
        "- Return on Equity (ROE): " ++ ((rt.rowFn "Return on Equity" latest).fmtPercent2 ++ "\n")]
       ++ pop ++
       ["## Insights and Recommendations\n",
        "1. Placeholder for automated insights based on financial analysis",
        "2. Placeholder for recommendations based on trend analysis",
        "3. Placeholder for risk assessment\n"]) := by
  have e1 := cellE_ok income "Revenue" latest hRev hil
  have e2 := cellE_ok income "Net Income" latest hNI hil
  have e3 := cellE_ok rt "Net Margin" latest hNM hrl
  have e4 := cellE_ok rt "Current Ratio" latest hCR hrl
  have e5 := cellE_ok rt "Quick Ratio" latest hQR hrl
  have e6 := cellE_ok rt "Return on Assets" latest hROA hrl
  have e7 := cellE_ok rt "Return on Equity" latest hROE hrl
  simp only [reportLines, hl, e1, e2, e3, e4, e5, e6, e7, hpop]

/-- C2 counterexample: a fresh state holding both statements but no computed
ratios does not fail the report request — `generate_summary_report` computes
the ratios itself (the slot is filled afterwards) and returns a report. -/
theorem report_selfheals_counterexample :
    sW.ratios = none ∧
    (∃ txt, (generate_summary_report sW "2025-09-09").1 = .ok txt) ∧
    (generate_summary_report sW "2025-09-09").2.ratios.isSome = true := by
  have hcalc : calculate_financial_ratios sW =
      (.ok (ratioTableOf incC balC),
       ⟨some incC, some balC, none, some (ratioTableOf incC balC)⟩) := by
    simp [calculate_financial_ratios, sW, computeRatios_eq incC balC (by decide)]
  have hrep := reportLines_eval (ratioTableOf incC balC) incC "2025-09-09" "2023-Q1" []
    rfl (by decide) (by decide) (by decide) (by decide) (by decide) (by decide) (by decide)
    (by decide) (by decide) rfl
  have hg : generate_summary_report sW "2025-09-09" =
      ((reportLines (ratioTableOf incC balC) (some incC) "2025-09-09").map
        (String.intercalate "\n"),
       ⟨some incC, some balC, none, some (ratioTableOf incC balC)⟩) := by
    simp only [generate_summary_report, show sW.ratios = none from rfl, hcalc]
  have hok : (generate_summary_report sW "2025-09-09").1 =
      Except.map (String.intercalate "\n")
        (reportLines (ratioTableOf incC balC) (some incC) "2025-09-09") := by
    rw [hg]
  refine ⟨rfl, ?_, ?_⟩
  · rw [hok, hrep]
    exact ⟨_, rfl⟩
  · rw [hg]
    rfl

/-- C2 amended: when no ratios are stored, a report request first attempts the
ratio computation itself; it fails with the no-ratios error exactly when that
inline attempt leaves the slot empty, and otherwise composes the report from
the freshly computed table. -/
theorem report_fails_only_if_recompute_fails (s : AnalyzerState) (today : String)
    (h0 : s.ratios = none) :
    ((calculate_financial_ratios s).2.ratios = none →
      (generate_summary_report s today).1 = .error .noRatiosAvailable) ∧
    ∀ rt, (calculate_financial_ratios s).2.ratios = some rt →
      (generate_summary_report s today).1 =
        ((reportLines rt (calculate_financial_ratios s).2.income_statement today).map
          (String.intercalate "\n")) := by
  constructor
  · intro h1
    simp [generate_summary_report, h0, h1]
  · intro rt h1
    simp [generate_summary_report, h0, h1]

/-- Witness for the amended C2 at a state with no ratios and no income
statement, where the inline attempt fails. -/
theorem report_fails_only_if_recompute_fails_witness :
    (((calculate_financial_ratios sNoInput).2.ratios = none →
      (generate_summary_report sNoInput "2025-09-09").1 = .error .noRatiosAvailable)) ∧
    (∀ rt, (calculate_financial_ratios sNoInput).2.ratios = some rt →
      (generate_summary_report sNoInput "2025-09-09").1 =
        ((reportLines rt (calculate_financial_ratios sNoInput).2.income_statement
          "2025-09-09").map (String.intercalate "\n"))) :=
  report_fails_only_if_recompute_fails sNoInput "2025-09-09" rfl

theorem roundHalfEven_intCast (n : Int) : roundHalfEven ((n : Int) : ℚ) = n := by
  have hf : ratFloor ((n : Int) : ℚ) = n := by
    simp [ratFloor]
  simp only [roundHalfEven, hf, sub_self]
  rw [if_pos (by norm_num : (0 : ℚ) < 1 / 2)]

/-- C6: the period-over-period section computes Revenue growth as
`revenue[latest]/revenue[previous] - 1`, Net Income growth analogously, and
the Net Margin change as a subtraction of the two margins, each rendered as a
two-decimal percentage line of the report. -/
theorem report_growth_formulas (rt income : Table) (today latest p : String)
    (hl : rt.cols.getLast? = some latest)
    (hp : prevPeriod rt = some p) (hpne : p ≠ "")
    (hRev : income.hasRow "Revenue" = true) (hNI : income.hasRow "Net Income" = true)
    (hNM : rt.hasRow "Net Margin" = true) (hCR : rt.hasRow "Current Ratio" = true)
    (hQR : rt.hasRow "Quick Ratio" = true) (hROA : rt.hasRow "Return on Assets" = true)
    (hROE : rt.hasRow "Return on Equity" = true)
    (hil : (colIndex latest income.cols).isSome = true)
    (hip : (colIndex p income.cols).isSome = true)
    (hrl : (colIndex latest rt.cols).isSome = true)
    (hrp : (colIndex p rt.cols).isSome = true) :
    ∃ ls, reportLines rt (some income) today = .ok ls ∧
      ("- Revenue Growth: " ++ (((income.rowFn "Revenue" latest).div
          (income.rowFn "Revenue" p)).sub (FVal.fin 1)).fmtPercent2) ∈ ls ∧
      ("- Net Income Growth: " ++ (((income.rowFn "Net Income" latest).div
          (income.rowFn "Net Income" p)).sub (FVal.fin 1)).fmtPercent2) ∈ ls ∧
      ("- Net Margin Change: " ++ (((rt.rowFn "Net Margin" latest).sub
          (rt.rowFn "Net Margin" p)).fmtPercent2 ++ " points\n")) ∈ ls := by
  have hpop := popSection_eval rt income latest p hp hpne hRev hNI hNM hil hip hrl hrp
  have hrep := reportLines_eval rt income today latest _ hl hRev hNI hNM hCR hQR hROA
    hROE hil hrl hpop
  exact ⟨_, hrep, by simp, by simp, by simp⟩

/-- Witness for C6 at the two-period example: Revenue 1000000 then 1050000
gives a Revenue Growth value of 1050000/1000000 - 1 = 0.05, rendered
"5.00%", and the three change lines appear in the report. -/
theorem report_growth_formulas_witness :
    ((((incW.rowFn "Revenue" "2023-Q2").div (incW.rowFn "Revenue" "2023-Q1")).sub
        (FVal.fin 1)).fmtPercent2 = "5.00%") ∧
    (∃ ls, reportLines rtW (some incW) "2025-09-09" = .ok ls ∧
      ("- Revenue Growth: " ++ (((incW.rowFn "Revenue" "2023-Q2").div
          (incW.rowFn "Revenue" "2023-Q1")).sub (FVal.fin 1)).fmtPercent2) ∈ ls ∧
      ("- Net Income Growth: " ++ (((incW.rowFn "Net Income" "2023-Q2").div
          (incW.rowFn "Net Income" "2023-Q1")).sub (FVal.fin 1)).fmtPercent2) ∈ ls ∧
      ("- Net Margin Change: " ++ (((rtW.rowFn "Net Margin" "2023-Q2").sub
          (rtW.rowFn "Net Margin" "2023-Q1")).fmtPercent2 ++ " points\n")) ∈ ls) := by
  constructor
  · have h1 : incW.rowFn "Revenue" "2023-Q2" = FVal.fin 1050000 := by decide
    have h2 : incW.rowFn "Revenue" "2023-Q1" = FVal.fin 1000000 := by decide
    rw [h1, h2]
    simp only [FVal.div]
    rw [if_pos (by norm_num : (1000000 : ℚ) ≠ 0)]
    simp only [FVal.sub, FVal.fmtPercent2]
    rw [show (1050000 / 1000000 - 1 : ℚ) = 1 / 20 by norm_num]
    simp only [formatPercent2]
    rw [show (1 / 20 : ℚ) * 10000 = ((500 : Int) : ℚ) by norm_num, roundHalfEven_intCast]
    decide
  · exact report_growth_formulas rtW incW "2025-09-09" "2023-Q2" "2023-Q1" rfl rfl
      (by decide) (by decide) (by decide) (by decide) (by decide) (by decide) (by decide)
      (by decide) (by decide) (by decide) (by decide) (by decide)

/-- C7: with exactly one period column the report succeeds, omits the
Period-over-Period Changes section entirely, and still emits the header and
the Revenue and Profit, Liquidity, Profitability, and Insights sections; and
whenever at least two periods exist, the previous period is the second-to-last
column. -/
theorem report_single_period (rt income : Table) (today p : String)
    (hcols : rt.cols = [p])
    (hRev : income.hasRow "Revenue" = true) (hNI : income.hasRow "Net Income" = true)
    (hNM : rt.hasRow "Net Margin" = true) (hCR : rt.hasRow "Current Ratio" = true)
    (hQR : rt.hasRow "Quick Ratio" = true) (hROA : rt.hasRow "Return on Assets" = true)
    (hROE : rt.hasRow "Return on Equity" = true)
    (hip : (colIndex p income.cols).isSome = true) :
    (∃ ls, reportLines rt (some income) today = .ok ls ∧
      "## Period-over-Period Changes\n" ∉ ls ∧
      "# Financial Statement Analysis Summary Report" ∈ ls ∧
      "### Revenue and Profit" ∈ ls ∧ "### Liquidity" ∈ ls ∧
      "### Profitability" ∈ ls ∧ "## Insights and Recommendations\n" ∈ ls) ∧
    ∀ t : Table, 1 < t.cols.length →
      prevPeriod t = some (t.cols.getD (t.cols.length - 2) "") := by
  constructor
  · have hl : rt.cols.getLast? = some p := by rw [hcols]; rfl
    have hrl : (colIndex p rt.cols).isSome = true := by rw [hcols]; simp [colIndex]
    have hpp : prevPeriod rt = none := by simp [prevPeriod, hcols]
    have hpop : popSection rt income p (prevPeriod rt) = .ok [] := by rw [hpp]; rfl
    have hrep := reportLines_eval rt income today p [] hl hRev hNI hNM hCR hQR hROA
      hROE hip hrl hpop
    refine ⟨_, hrep, ?_, by simp, by simp, by simp, by simp, by simp⟩
    intro hmem
    simp only [List.append_nil, List.mem_append, List.mem_cons, List.not_mem_nil,
      or_false, or_assoc] at hmem
    rcases hmem with h | h | h | h | h | h | h | h | h | h | h | h | h | h | h | h | h | h
    · exact absurd h (by decide)
    · exact ne_concat_left "## Period: " p _ 9 (by decide) (by decide) h.symm
    · exact ne_concat_left "Generated on: " (today ++ "\n") _ 0 (by decide) (by decide)
        h.symm
    · exact absurd h (by decide)
    · exact absurd h (by decide)
    · exact ne_concat_left "- Revenue: " _ _ 0 (by decide) (by decide) h.symm
    · exact ne_concat_left "- Net Income: " _ _ 0 (by decide) (by decide) h.symm
    · exact ne_concat_left "- Net Margin: " _ _ 0 (by decide) (by decide) h.symm
    · exact absurd h (by decide)
    · exact ne_concat_left "- Current Ratio: " _ _ 0 (by decide) (by decide) h.symm
    · exact ne_concat_left "- Quick Ratio: " _ _ 0 (by decide) (by decide) h.symm
    · exact absurd h (by decide)
    · exact ne_concat_left "- Return on Assets (ROA): " _ _ 0 (by decide) (by decide)
        h.symm
    · exact ne_concat_left "- Return on Equity (ROE): " _ _ 0 (by decide) (by decide)
        h.symm
    · exact absurd h (by decide)
    · exact absurd h (by decide)
    · exact absurd h (by decide)
    · exact absurd h (by decide)
  · intro t ht
    simp [prevPeriod, ht]

/-- Witness for C7 at the single-period example's ratio table and income
statement. -/
theorem report_single_period_witness :
    (∃ ls, reportLines (ratioTableOf incC balC) (some incC) "2025-09-09" = .ok ls ∧
      "## Period-over-Period Changes\n" ∉ ls ∧
      "# Financial Statement Analysis Summary Report" ∈ ls ∧
      "### Revenue and Profit" ∈ ls ∧ "### Liquidity" ∈ ls ∧
      "### Profitability" ∈ ls ∧ "## Insights and Recommendations\n" ∈ ls) ∧
    ∀ t : Table, 1 < t.cols.length →
      prevPeriod t = some (t.cols.getD (t.cols.length - 2) "") :=
  report_single_period (ratioTableOf incC balC) incC "2025-09-09" "2023-Q1" rfl
    (by decide) (by decide) (by decide) (by decide) (by decide) (by decide) (by decide)
    (by decide)
